import Mathlib

/-
Verification of the Roblox-Friends-Tracker pipeline (run.py) against its
specification.  The script is a single sequential pass:

  load_cookie -> get_auth_user -> fetch_friend_ids -> fetch_user_details
  -> analyze_changes -> save_database

We shallow-embed each component.  Network responses become explicit trace
values (a function from request index to response), file contents become
explicit state values, and every function returns both its result and the
list of log lines it emits, so that logging and file-writing behaviour are
observable in the model.  The source compares nameless fractions with
Python float division (`invalid / len > 0.2`, `empty / len > 0.5`); for
list lengths far below 2^50 those comparisons agree exactly with the
rational comparisons `5 * invalid > len` and `2 * empty > len`, which is
how we embed them.
-/

namespace FriendsTracker

/-- Configuration constants, run.py lines 16-18. -/
def BATCH_SIZE : ℕ := 50

/-- run.py line 17. -/
def MAX_RETRIES : ℕ := 3

/-- run.py line 18 (seconds). -/
def RATE_LIMIT_DELAY : ℕ := 5

/-- A friend record: a Python dict with an `id` key and optional profile
fields (`name`, `displayName`, `hasVerifiedBadge`).  An absent key and a
stored `None` are both modelled as `none`. -/
structure Friend where
  id : ℕ
  name : Option String := none
  displayName : Option String := none
  hasVerifiedBadge : Option Bool := none
deriving Repr, DecidableEq

/-- A record returned by the bulk user-details endpoint (run.py line 160). -/
structure Detail where
  id : ℕ
  name : Option String := none
  displayName : Option String := none
  hasVerifiedBadge : Option Bool := none
deriving Repr, DecidableEq

/-- Python truthiness of an optional string: `None` and the empty string
are falsy, every other string is truthy. -/
def strTruthy : Option String → Bool
  | none => false
  | some s => !s.isEmpty

/-- Number of records failing `f.get('name')` truthiness, as counted by the
guards at run.py lines 209 and 267. -/
def namelessCount (l : List Friend) : ℕ :=
  l.countP (fun f => !strTruthy f.name)

/-- A Python dict comprehension keyed on `id` (run.py lines 145, 222-223):
lookup returns the LAST record with the given id, since later entries
overwrite earlier ones. -/
def dictById (l : List Friend) (i : ℕ) : Option Friend :=
  l.foldl (fun acc u => if u.id = i then some u else acc) none

/-- Same dict-building for fetched detail records (run.py line 161). -/
def detailById (l : List Detail) (i : ℕ) : Option Detail :=
  l.foldl (fun acc u => if u.id = i then some u else acc) none

/-- Observable state of the per-account `<username>_friends.json` file as
seen by a reader: absent, unreadable/unparsable, or parsed content. -/
inductive FileState where
  | missing
  | corrupt
  | ok (content : List Friend)
deriving Repr, DecidableEq

/-- `load_local_history` (run.py lines 70-79): returns the parsed list, or
`[]` when the file is missing, or `[]` when reading/parsing raises (the
source catches with a bare `except: pass`).  The second component is the
list of log lines emitted: the source body contains no log call at all, so
it is `[]` in every case. -/
def load_local_history : FileState → List Friend × List String
  | .missing => ([], [])
  | .corrupt => ([], [])
  | .ok l => (l, [])

/-- One response to a friends/find pagination request (run.py lines 110-131):
HTTP 200 carrying page items and an optional `NextCursor`, HTTP 429, another
HTTP status, or a `requests.RequestException`.  Page items are identified by
their friend ids. -/
inductive PageResp where
  | ok (items : List ℕ) (nextCursor : Option String)
  | rateLimited
  | httpError (code : ℕ)
  | connError
deriving Repr, DecidableEq

/-- Python truthiness of the cursor (run.py line 119 `if not cursor`):
`None` and `""` end pagination. -/
def cursorTruthy : Option String → Bool
  | none => false
  | some s => !s.isEmpty

def rateLimitLog : String := "Rate limit (429). Retrying..."

def errorFetchLog (c : ℕ) : String := "Error fetching list: " ++ toString c

def netErrLog : String := "Network error while fetching friends."

/-- The observable outcome of `fetch_friend_ids`: the returned value (the
Python annotation is `Optional[List[Dict]]`, so the result is an `Option`),
the sequence of cursors of the requests actually issued, and the error/warn
log lines emitted. -/
structure FetchOut where
  result : Option (List ℕ)
  requests : List (Option String)
  logs : List String
deriving Repr, DecidableEq

/-- The `while True` pagination loop of `fetch_friend_ids` (run.py lines
104-131), run against a response trace `s` (the i-th issued request receives
response `s i`) with explicit fuel; `none` means the fuel ran out before the
loop exited.  Each iteration issues one request carrying the current cursor.
On 200 the items are appended and the cursor advances (loop ends if the new
cursor is falsy); on 429 the loop sleeps and re-issues with the SAME cursor;
on any other status or a connection error the loop breaks and the function
returns the accumulated list (note: the source never returns `None`). -/
def fetchFriendIdsAux (s : ℕ → PageResp) :
    ℕ → ℕ → Option String → List ℕ → List (Option String) → List String →
    Option FetchOut
  | 0, _, _, _, _, _ => none
  | fuel + 1, i, cursor, acc, reqs, logs =>
    match s i with
    | .ok items next =>
      if cursorTruthy next then
        fetchFriendIdsAux s fuel (i + 1) next (acc ++ items) (reqs ++ [cursor]) logs
      else
        some ⟨some (acc ++ items), reqs ++ [cursor], logs⟩
    | .rateLimited =>
      fetchFriendIdsAux s fuel (i + 1) cursor acc (reqs ++ [cursor])
        (logs ++ [rateLimitLog])
    | .httpError c =>
      some ⟨some acc, reqs ++ [cursor], logs ++ [errorFetchLog c]⟩
    | .connError =>
      some ⟨some acc, reqs ++ [cursor], logs ++ [netErrLog]⟩

/-- `fetch_friend_ids` (run.py lines 96-134) as a whole: start with no
cursor and an empty accumulator. -/
def fetch_friend_ids (s : ℕ → PageResp) (fuel : ℕ) : Option FetchOut :=
  fetchFriendIdsAux s fuel 0 none [] [] []

/-- The caller's hard-stop test (run.py line 301 `if raw_friends is None`):
`__main__` exits with code 1 exactly when this is true. -/
def fetchHalt (r : Option (List ℕ)) : Bool := r.isNone

/-- A response at which the pagination loop stops: a 200 whose next cursor
is falsy, a non-200/429 status, or a connection error. -/
def terminalResp : PageResp → Bool
  | .ok _ next => !cursorTruthy next
  | .rateLimited => false
  | .httpError _ => true
  | .connError => true

/-- One response to a bulk-details POST attempt (run.py lines 158-170). -/
inductive BatchResp where
  | ok (details : List Detail)
  | rateLimited
  | httpError (code : ℕ)
  | connError
deriving Repr, DecidableEq

/-- The `for attempt in range(MAX_RETRIES)` retry loop for one batch
(run.py lines 156-170), against a per-attempt response trace.  Returns the
fetched details (`none` if no attempt returned 200 before the loop ended),
the number of attempts issued, and the sleep durations performed in order:
`(attempt + 1) * RATE_LIMIT_DELAY` after a 429 (the linear backoff of line
164) and `1` after a connection error (line 170).  A non-200/429 status
abandons the batch immediately (line 168 `break`). -/
def fetchBatchAux (tr : ℕ → BatchResp) :
    ℕ → ℕ → List ℕ → Option (List Detail) × ℕ × List ℕ
  | 0, attempt, waits => (none, attempt, waits)
  | rem + 1, attempt, waits =>
    match tr attempt with
    | .ok ds => (some ds, attempt + 1, waits)
    | .rateLimited =>
      fetchBatchAux tr rem (attempt + 1)
        (waits ++ [(attempt + 1) * RATE_LIMIT_DELAY])
    | .httpError _ => (none, attempt + 1, waits)
    | .connError => fetchBatchAux tr rem (attempt + 1) (waits ++ [1])

/-- Run the retry loop for a single batch with the source's attempt bound. -/
def fetchBatch (tr : ℕ → BatchResp) : Option (List Detail) × ℕ × List ℕ :=
  fetchBatchAux tr MAX_RETRIES 0 []

/-- The batch partition `for i in range(0, len(user_ids), BATCH_SIZE):
user_ids[i:i+BATCH_SIZE]` (run.py lines 152-153). -/
def toBatches (l : List ℕ) : List (List ℕ) :=
  (List.range ((l.length + BATCH_SIZE - 1) / BATCH_SIZE)).map
    (fun k => (l.drop (k * BATCH_SIZE)).take BATCH_SIZE)

/-- Building `fetched_map` over all batches (run.py lines 152-170): batch
`b` is driven by the attempt trace `tr b`; a batch that never got a 200
contributes nothing. -/
def fetchAllBatches (nBatches : ℕ) (tr : ℕ → ℕ → BatchResp) : List Detail :=
  (List.range nBatches).foldl
    (fun acc b => acc ++ ((fetchBatch (tr b)).1.getD [])) []

/-- `f.update({...})` with freshly fetched API data (run.py lines 182-186):
the three profile fields are overwritten from the fetched record, the id is
kept. -/
def applyApi (f : Friend) (d : Detail) : Friend :=
  { f with name := d.name, displayName := d.displayName,
           hasVerifiedBadge := d.hasVerifiedBadge }

/-- `f.update({...})` with the local-history fallback record (run.py lines
189-193). -/
def applyLocal (f l : Friend) : Friend :=
  { f with name := l.name, displayName := l.displayName,
           hasVerifiedBadge := l.hasVerifiedBadge }

/-- The merge step for one friend entry (run.py lines 176-196): prefer the
freshly fetched detail; otherwise fall back to the local-history record only
if its `name` is truthy (that branch counts as "recovered", the Bool);
otherwise leave the entry untouched. -/
def mergeOne (fetched : ℕ → Option Detail) (localH : ℕ → Option Friend)
    (f : Friend) : Friend × Bool :=
  match fetched f.id with
  | some d => (applyApi f d, false)
  | none =>
    match localH f.id with
    | some l => if strTruthy l.name then (applyLocal f l, true) else (f, false)
    | none => (f, false)

/-- One iteration of the `for f in friends` merge loop (run.py lines
176-196): append the merged entry, bump `recovered` when the fallback
fired. -/
def mergeStep (fetched : ℕ → Option Detail) (localH : ℕ → Option Friend)
    (a : List Friend × ℕ) (f : Friend) : List Friend × ℕ :=
  (a.1 ++ [(mergeOne fetched localH f).1],
   a.2 + (if (mergeOne fetched localH f).2 then 1 else 0))

/-- The whole merge loop: `final_list` and the `recovered` counter. -/
def mergeDetails (fetched : ℕ → Option Detail) (localH : ℕ → Option Friend)
    (friends : List Friend) : List Friend × ℕ :=
  friends.foldl (mergeStep fetched localH) ([], 0)

/-- `fetch_user_details` (run.py lines 136-201): early-return `[]` on an
empty input, otherwise batch-fetch details over the response traces and
merge them with the prior local snapshot as fallback.  Returns the final
list and the `recovered` count. -/
def fetch_user_details (friends : List Friend) (localHistory : List Friend)
    (tr : ℕ → ℕ → BatchResp) : List Friend × ℕ :=
  if friends = [] then ([], 0)
  else
    mergeDetails
      (detailById
        (fetchAllBatches (toBatches (friends.map Friend.id)).length tr))
      (dictById localHistory) friends

/-- State of the old snapshot file as `analyze_changes` sees it (run.py
lines 214-220): absent (silent return), unreadable/unparsable (the bare
`except: return`), or parsed. -/
inductive OldFile where
  | missing
  | corrupt
  | ok (old : List Friend)
deriving Repr, DecidableEq

/-- The observable outcome class of `analyze_changes`. -/
inductive AnalyzeStatus where
  | skipped
  | noPrevious
  | loadFailed
  | noChanges
  | reported (removed added : Finset ℕ)
deriving DecidableEq

/-- Observable behaviour of `analyze_changes`: outcome, lines actually
appended to the activity log, and `log(...)` console lines emitted. -/
structure AnalyzeOut where
  status : AnalyzeStatus
  appended : List String
  console : List String
deriving DecidableEq

/-- The identifier set of a list of records (run.py lines 225-226: dict
keys, i.e. the set of ids). -/
def ids (l : List Friend) : Finset ℕ := (l.map Friend.id).toFinset

/-- Python string formatting of an optional name (`None` prints as "None"). -/
def nameString : Option String → String
  | some s => s
  | none => "None"

def skipLog : String := "Too many missing names. Skipping analysis."

def noChangesLog : String := "No changes detected."

def logUpdatedLog : String := "Activity log updated."

def logWriteFailedLog : String := "Log write failed."

/-- An `UNFRIENDED` activity-log line (run.py line 245), resolving the id
against the old snapshot. -/
def removalLine (ts : String) (old : List Friend) (uid : ℕ) : String :=
  "[" ++ ts ++ "] UNFRIENDED: " ++
    nameString ((dictById old uid).bind Friend.name) ++
    " (ID: " ++ toString uid ++ ")"

/-- A `NEW FRIEND` activity-log line (run.py line 252), resolving the id
against the current list. -/
def additionLine (ts : String) (current : List Friend) (uid : ℕ) : String :=
  "[" ++ ts ++ "] NEW FRIEND: " ++
    nameString ((dictById current uid).bind Friend.name) ++
    " (ID: " ++ toString uid ++ ")"

/-- `analyze_changes` (run.py lines 203-261).  Guard first: with a
non-empty current list whose nameless fraction strictly exceeds 0.5,
analysis is skipped.  Then the old snapshot is loaded (silent return when
missing or unparsable).  `unfriended = old_ids - cur_ids`,
`new_friends = cur_ids - old_ids`; if both are empty the run reports "no
changes" and appends nothing.  Otherwise one timestamped line per removed
id and one per added id is built (Python iterates the sets in an
unspecified order; we fix ascending id order, which the claims — counts and
one-line-per-id — do not depend on) and appended to the activity log;
`appendOk = false` models the append raising, which is logged and
non-fatal. -/
def analyze_changes (current : List Friend) (oldFile : OldFile) (ts : String)
    (appendOk : Bool) : AnalyzeOut :=
  if 0 < current.length ∧ 2 * namelessCount current > current.length then
    ⟨.skipped, [], [skipLog]⟩
  else
    match oldFile with
    | .missing => ⟨.noPrevious, [], []⟩
    | .corrupt => ⟨.loadFailed, [], []⟩
    | .ok old =>
      if ids old \ ids current = ∅ ∧ ids current \ ids old = ∅ then
        ⟨.noChanges, [], [noChangesLog]⟩
      else
        ⟨.reported (ids old \ ids current) (ids current \ ids old),
         (if appendOk then
            ((ids old \ ids current).sort (· ≤ ·)).map (removalLine ts old) ++
            ((ids current \ ids old).sort (· ≤ ·)).map (additionLine ts current)
          else []),
         [if appendOk then logUpdatedLog else logWriteFailedLog]⟩

def corruptionLog : String :=
  "Data corruption detected (names missing). Aborting save."

def jsonFailLog : String := "Failed to save JSON."

def csvFailLog : String := "Failed to save CSV."

def dbUpdatedLog : String := "Database updated."

/-- Observable behaviour of `save_database`: whether the JSON and the CSV
files were (re)written, and the console lines emitted. -/
structure SaveOut where
  wroteJson : Bool
  wroteCsv : Bool
  console : List String
deriving Repr, DecidableEq

/-- `save_database` (run.py lines 263-285): return immediately on an empty
list; abort (writing neither file) when the nameless fraction strictly
exceeds 0.2; otherwise attempt the JSON write and, independently, the CSV
write.  `jsonOk`/`csvOk` model each write's I/O succeeding; a failing write
is logged and does not prevent the other. -/
def save_database (friends : List Friend) (jsonOk csvOk : Bool) : SaveOut :=
  if friends = [] then ⟨false, false, []⟩
  else if 5 * namelessCount friends > friends.length then
    ⟨false, false, [corruptionLog]⟩
  else
    ⟨jsonOk, csvOk,
     (if jsonOk then [] else [jsonFailLog]) ++
       (if csvOk then [dbUpdatedLog] else [csvFailLog])⟩

/-! Concrete inputs used to exercise the model. -/

/-- Three pages: cursors A, B, then none. -/
def pagesABnone : ℕ → PageResp := fun n =>
  if n = 0 then .ok [1, 2] (some ("A"))
  else if n = 1 then .ok [3] (some ("B"))
  else if n = 2 then .ok [4, 5] none
  else .connError

/-- Every pagination request is answered 429. -/
def all429pages : ℕ → PageResp := fun _ => .rateLimited

/-- Every bulk-details attempt is answered 429. -/
def all429batch : ℕ → BatchResp := fun _ => .rateLimited

/-- A batch answered 429 twice, then 200. -/
def twice429trace : ℕ → BatchResp := fun n =>
  if n < 2 then .rateLimited
  else .ok [⟨7, some ("x"), some ("y"), some false⟩]

/-- The very first pagination request fails with HTTP 500. -/
def errorFirstPages : ℕ → PageResp := fun _ => .httpError 500

/-- Five records, exactly one nameless: nameless fraction exactly 0.2. -/
def fiveOneNameless : List Friend :=
  [⟨1, some ("a"), none, none⟩, ⟨2, some ("b"), none, none⟩,
   ⟨3, some ("c"), none, none⟩, ⟨4, some ("d"), none, none⟩,
   ⟨5, none, none, none⟩]

/-- Two records, exactly one nameless: nameless fraction exactly 0.5. -/
def curHalfNameless : List Friend :=
  [⟨1, none, none, none⟩, ⟨2, some ("b"), none, none⟩]

/-- A one-record old snapshot. -/
def oldSingle : List Friend := [⟨3, some ("c"), none, none⟩]

/-- Old snapshot with ids 1, 2, 3. -/
def old123 : List Friend :=
  [⟨1, some ("a"), none, none⟩, ⟨2, some ("b"), none, none⟩,
   ⟨3, some ("c"), none, none⟩]

/-- Current list with ids 2, 3, 4. -/
def cur234 : List Friend :=
  [⟨2, some ("b"), none, none⟩, ⟨3, some ("c"), none, none⟩,
   ⟨4, some ("d"), none, none⟩]

def tsT : String := "t"

/-- Bulk lookup returned nothing. -/
def fetchedNone : ℕ → Option Detail := fun _ => none

/-- Local history holding a named record for id 7 only. -/
def localSeven : ℕ → Option Friend := fun i =>
  if i = 7 then some ⟨7, some ("old"), some ("Old"), some true⟩ else none

/-- A raw friend entry with id 7 and no profile fields. -/
def friendSeven : Friend := ⟨7, none, none, none⟩

/-! Shared helper lemmas. -/

/-- Loop-step equation: a 200 response appends the page items, advances the
cursor, and either recurses or exits depending on cursor truthiness. -/
theorem fetchAux_step_ok (s : ℕ → PageResp) (fuel i : ℕ)
    (cursor : Option String) (acc : List ℕ) (reqs : List (Option String))
    (logs : List String) (items : List ℕ) (next : Option String)
    (hsi : s i = .ok items next) :
    fetchFriendIdsAux s (fuel + 1) i cursor acc reqs logs =
      if cursorTruthy next then
        fetchFriendIdsAux s fuel (i + 1) next (acc ++ items) (reqs ++ [cursor])
          logs
      else some ⟨some (acc ++ items), reqs ++ [cursor], logs⟩ := by
  rw [fetchFriendIdsAux, hsi]

/-- Loop-step equation: a 429 response logs a warning and recurses with the
SAME cursor (the re-issued request is identical). -/
theorem fetchAux_step_rateLimited (s : ℕ → PageResp) (fuel i : ℕ)
    (cursor : Option String) (acc : List ℕ) (reqs : List (Option String))
    (logs : List String) (hsi : s i = .rateLimited) :
    fetchFriendIdsAux s (fuel + 1) i cursor acc reqs logs =
      fetchFriendIdsAux s fuel (i + 1) cursor acc (reqs ++ [cursor])
        (logs ++ [rateLimitLog]) := by
  rw [fetchFriendIdsAux, hsi]

/-- Loop-step equation: any other HTTP status logs an error and returns the
accumulated list. -/
theorem fetchAux_step_httpError (s : ℕ → PageResp) (fuel i : ℕ)
    (cursor : Option String) (acc : List ℕ) (reqs : List (Option String))
    (logs : List String) (c : ℕ) (hsi : s i = .httpError c) :
    fetchFriendIdsAux s (fuel + 1) i cursor acc reqs logs =
      some ⟨some acc, reqs ++ [cursor], logs ++ [errorFetchLog c]⟩ := by
  rw [fetchFriendIdsAux, hsi]

/-- Loop-step equation: a connection error logs and returns the accumulated
list. -/
theorem fetchAux_step_connError (s : ℕ → PageResp) (fuel i : ℕ)
    (cursor : Option String) (acc : List ℕ) (reqs : List (Option String))
    (logs : List String) (hsi : s i = .connError) :
    fetchFriendIdsAux s (fuel + 1) i cursor acc reqs logs =
      some ⟨some acc, reqs ++ [cursor], logs ++ [netErrLog]⟩ := by
  rw [fetchFriendIdsAux, hsi]

/-- The pagination loop's returned value is always `some` list: no branch of
the source ever returns Python `None`. -/
theorem fetchAux_result_isSome (s : ℕ → PageResp) :
    ∀ fuel i cursor acc reqs logs out,
      fetchFriendIdsAux s fuel i cursor acc reqs logs = some out →
      out.result.isSome = true := by
  intro fuel
  induction fuel with
  | zero =>
    intro i cursor acc reqs logs out h
    simp [fetchFriendIdsAux] at h
  | succ fuel ih =>
    intro i cursor acc reqs logs out h
    cases hsi : s i with
    | ok items next =>
      rw [fetchAux_step_ok s fuel i cursor acc reqs logs items next hsi] at h
      by_cases hc : cursorTruthy next = true
      · rw [if_pos hc] at h
        exact ih _ _ _ _ _ _ h
      · rw [if_neg hc] at h
        injection h with h
        subst h
        rfl
    | rateLimited =>
      rw [fetchAux_step_rateLimited s fuel i cursor acc reqs logs hsi] at h
      exact ih _ _ _ _ _ _ h
    | httpError c =>
      rw [fetchAux_step_httpError s fuel i cursor acc reqs logs c hsi] at h
      injection h with h
      subst h
      rfl
    | connError =>
      rw [fetchAux_step_connError s fuel i cursor acc reqs logs hsi] at h
      injection h with h
      subst h
      rfl

/-- If the trace contains a terminal response, the pagination loop exits
within that many iterations, for any starting state. -/
theorem fetchAux_isSome_of_terminal (s : ℕ → PageResp) :
    ∀ n i cursor acc reqs logs, terminalResp (s (i + n)) = true →
      (fetchFriendIdsAux s (n + 1) i cursor acc reqs logs).isSome = true := by
  intro n
  induction n with
  | zero =>
    intro i cursor acc reqs logs h
    rw [Nat.add_zero] at h
    cases hsi : s i with
    | ok items next =>
      rw [hsi] at h
      have hc : cursorTruthy next = false := by
        simpa [terminalResp] using h
      rw [fetchAux_step_ok s 0 i cursor acc reqs logs items next hsi,
        if_neg (by simp [hc])]
      rfl
    | rateLimited =>
      rw [hsi] at h
      simp [terminalResp] at h
    | httpError c =>
      rw [fetchAux_step_httpError s 0 i cursor acc reqs logs c hsi]
      rfl
    | connError =>
      rw [fetchAux_step_connError s 0 i cursor acc reqs logs hsi]
      rfl
  | succ n ih =>
    intro i cursor acc reqs logs h
    have hshift : terminalResp (s ((i + 1) + n)) = true := by
      have e : (i + 1) + n = i + (n + 1) := by omega
      rw [e]
      exact h
    cases hsi : s i with
    | ok items next =>
      rw [fetchAux_step_ok s (n + 1) i cursor acc reqs logs items next hsi]
      by_cases hc : cursorTruthy next = true
      · rw [if_pos hc]
        exact ih (i + 1) next (acc ++ items) (reqs ++ [cursor]) logs hshift
      · rw [if_neg hc]
        rfl
    | rateLimited =>
      rw [fetchAux_step_rateLimited s (n + 1) i cursor acc reqs logs hsi]
      exact ih (i + 1) cursor acc (reqs ++ [cursor]) (logs ++ [rateLimitLog])
        hshift
    | httpError c =>
      rw [fetchAux_step_httpError s (n + 1) i cursor acc reqs logs c hsi]
      rfl
    | connError =>
      rw [fetchAux_step_connError s (n + 1) i cursor acc reqs logs hsi]
      rfl

/-- Under unboundedly repeated 429 responses the pagination loop consumes
any amount of fuel without exiting. -/
theorem fetchAux_none_of_all429 (s : ℕ → PageResp)
    (hs : ∀ m, s m = .rateLimited) :
    ∀ fuel i cursor acc reqs logs,
      fetchFriendIdsAux s fuel i cursor acc reqs logs = none := by
  intro fuel
  induction fuel with
  | zero => intro i cursor acc reqs logs; rfl
  | succ fuel ih =>
    intro i cursor acc reqs logs
    rw [fetchAux_step_rateLimited s fuel i cursor acc reqs logs (hs i)]
    exact ih (i + 1) cursor acc (reqs ++ [cursor]) (logs ++ [rateLimitLog])

/-- Unfolding the merge fold from an arbitrary accumulator. -/
theorem mergeDetails_foldl (fetched : ℕ → Option Detail)
    (localH : ℕ → Option Friend) :
    ∀ (friends : List Friend) (acc : List Friend) (k : ℕ),
      friends.foldl (mergeStep fetched localH) (acc, k) =
      (acc ++ friends.map (fun g => (mergeOne fetched localH g).1),
       k + friends.countP (fun g => (mergeOne fetched localH g).2)) := by
  intro friends
  induction friends with
  | nil => intro acc k; simp
  | cons f fs ih =>
    intro acc k
    rw [List.foldl_cons]
    show fs.foldl (mergeStep fetched localH)
        (acc ++ [(mergeOne fetched localH f).1],
         k + (if (mergeOne fetched localH f).2 then 1 else 0)) = _
    rw [ih]
    rw [List.countP_cons, List.map_cons, Prod.mk.injEq]
    constructor
    · simp
    · omega

/-- `mergeDetails` maps `mergeOne` over the entries and counts the entries
recovered via the local fallback. -/
theorem mergeDetails_spec (fetched : ℕ → Option Detail)
    (localH : ℕ → Option Friend) (friends : List Friend) :
    mergeDetails fetched localH friends =
      (friends.map (fun g => (mergeOne fetched localH g).1),
       friends.countP (fun g => (mergeOne fetched localH g).2)) := by
  rw [mergeDetails, mergeDetails_foldl]
  simp

/-- Both set differences are empty exactly when the id sets coincide. -/
theorem sdiff_both_empty_iff (a b : Finset ℕ) :
    (a \ b = ∅ ∧ b \ a = ∅) ↔ a = b := by
  constructor
  · rintro ⟨h1, h2⟩
    exact Finset.Subset.antisymm (Finset.sdiff_eq_empty_iff_subset.mp h1)
      (Finset.sdiff_eq_empty_iff_subset.mp h2)
  · rintro rfl
    simp

/-- A non-empty record list has a non-empty id set. -/
theorem ids_ne_empty (l : List Friend) (h : l ≠ []) : ids l ≠ ∅ := by
  cases l with
  | nil => exact absurd rfl h
  | cons f fs =>
    intro hcontra
    have hmem : f.id ∈ ids (f :: fs) := by simp [ids]
    rw [hcontra] at hmem
    exact absurd hmem (Finset.not_mem_empty _)

/-- Unfolding `analyze_changes` when the corruption guard fires. -/
theorem analyze_changes_skip (current : List Friend) (oldFile : OldFile)
    (ts : String) (appendOk : Bool)
    (hg : 0 < current.length ∧ 2 * namelessCount current > current.length) :
    analyze_changes current oldFile ts appendOk = ⟨.skipped, [], [skipLog]⟩ := by
  rw [analyze_changes.eq_def, if_pos hg]

/-- Unfolding `analyze_changes` when the guard passes and the old snapshot
file is missing. -/
theorem analyze_changes_missing (current : List Friend) (ts : String)
    (appendOk : Bool)
    (hg : ¬(0 < current.length ∧ 2 * namelessCount current > current.length)) :
    analyze_changes current .missing ts appendOk = ⟨.noPrevious, [], []⟩ := by
  rw [analyze_changes.eq_def, if_neg hg]

/-- Unfolding `analyze_changes` when the guard passes and the old snapshot
file is unreadable/unparsable. -/
theorem analyze_changes_corrupt (current : List Friend) (ts : String)
    (appendOk : Bool)
    (hg : ¬(0 < current.length ∧ 2 * namelessCount current > current.length)) :
    analyze_changes current .corrupt ts appendOk = ⟨.loadFailed, [], []⟩ := by
  rw [analyze_changes.eq_def, if_neg hg]

/-- Unfolding `analyze_changes` when the guard passes and an old snapshot
was parsed. -/
theorem analyze_changes_ok (current old : List Friend) (ts : String)
    (appendOk : Bool)
    (hg : ¬(0 < current.length ∧ 2 * namelessCount current > current.length)) :
    analyze_changes current (.ok old) ts appendOk =
      if ids old \ ids current = ∅ ∧ ids current \ ids old = ∅ then
        ⟨.noChanges, [], [noChangesLog]⟩
      else
        ⟨.reported (ids old \ ids current) (ids current \ ids old),
         (if appendOk then
            ((ids old \ ids current).sort (· ≤ ·)).map (removalLine ts old) ++
            ((ids current \ ids old).sort (· ≤ ·)).map (additionLine ts current)
          else []),
         [if appendOk then logUpdatedLog else logWriteFailedLog]⟩ := by
  rw [analyze_changes.eq_def, if_neg hg]

/-! Claim theorems. -/

/-- Claim C1 (code-bug evidence).  The claim says that on a non-2xx/non-429
status or connection error with nothing accumulated, `fetch_friend_ids`
returns a `None` sentinel distinct from the empty list and the caller exits
non-zero.  In the source, every exit path of the pagination loop returns
the accumulated list — `None` is never returned, despite the function's
`Optional[List[Dict]]` annotation and the caller's `is None` hard-stop
check.  First conjunct: the loop's returned value is always a list, never
the `None` sentinel.  Second and third conjuncts: with HTTP 500 answering
the very first request, the function returns the empty list (with an error
log) and the caller's hard-stop test does not fire, so the run continues
with exit code 0. -/
theorem c1_fetch_error_returns_empty_list_not_none :
    (∀ (s : ℕ → PageResp) (fuel i : ℕ) (cursor : Option String)
       (acc : List ℕ) (reqs : List (Option String)) (logs : List String)
       (out : FetchOut),
       fetchFriendIdsAux s fuel i cursor acc reqs logs = some out →
       out.result.isSome = true) ∧
    fetch_friend_ids errorFirstPages 1 =
      some ⟨some [], [none], [errorFetchLog 500]⟩ ∧
    fetchHalt (some []) = false := by
  refine ⟨?_, by decide, by decide⟩
  intro s fuel i cursor acc reqs logs out h
  exact fetchAux_result_isSome s fuel i cursor acc reqs logs out h

/-- Witness for C1: the first conjunct applied at a concrete trace, fuel
and output, with the hypothesis discharged by evaluation. -/
theorem c1_witness :
    (FetchOut.mk (some ([] : List ℕ)) [none] [errorFetchLog 500]).result.isSome
      = true :=
  c1_fetch_error_returns_empty_list_not_none.1 errorFirstPages 1 0 none [] []
    [] ⟨some [], [none], [errorFetchLog 500]⟩ (by decide)

set_option maxRecDepth 4000 in
/-- Claim C5.  Batching: 120 ids are partitioned into exactly 3 POST batches
of sizes 50, 50, 20.  On HTTP 429 the same batch is retried with a wait of
`(attempt + 1) * RATE_LIMIT_DELAY` before the next attempt (linearly
increasing backoff), up to the fixed attempt ceiling `MAX_RETRIES`; a batch
answered 429 twice and then 200 issues exactly 3 attempts (2 retries) with
the strictly increasing waits 5 and 10. -/
theorem c5_batching_and_backoff (tr : ℕ → BatchResp) (rem attempt : ℕ)
    (waits : List ℕ) (h : tr attempt = .rateLimited) :
    (toBatches (List.range 120)).map List.length = [50, 50, 20] ∧
    fetchBatchAux tr (rem + 1) attempt waits =
      fetchBatchAux tr rem (attempt + 1)
        (waits ++ [(attempt + 1) * RATE_LIMIT_DELAY]) ∧
    fetchBatch twice429trace =
      (some [⟨7, some ("x"), some ("y"), some false⟩], 3, [5, 10]) ∧
    (5 : ℕ) < 10 := by
  refine ⟨by decide, ?_, by decide, by decide⟩
  rw [fetchBatchAux, h]

/-- Witness for C5: the backoff equation at a concrete all-429 trace. -/
theorem c5_witness :
    fetchBatchAux all429batch 1 0 [] =
      fetchBatchAux all429batch 0 1 ([] ++ [(0 + 1) * RATE_LIMIT_DELAY]) :=
  (c5_batching_and_backoff all429batch 0 0 [] rfl).2.1

/-- Claim C7.  Pagination: a 429 response makes the loop re-issue the same
request (cursor unchanged); a 200 with a truthy next cursor advances the
cursor; a 200 with an absent/empty cursor stops.  On the concrete
three-page trace with cursors A, B, then none, exactly three requests are
issued (with cursors none, A, B) and the accumulated list holds all items
of all three pages in page order. -/
theorem c7_pagination (s : ℕ → PageResp) (fuel i : ℕ)
    (cursor : Option String) (acc : List ℕ) (reqs : List (Option String))
    (logs : List String) :
    (s i = .rateLimited →
      fetchFriendIdsAux s (fuel + 1) i cursor acc reqs logs =
        fetchFriendIdsAux s fuel (i + 1) cursor acc (reqs ++ [cursor])
          (logs ++ [rateLimitLog])) ∧
    (∀ items next, s i = .ok items next → cursorTruthy next = true →
      fetchFriendIdsAux s (fuel + 1) i cursor acc reqs logs =
        fetchFriendIdsAux s fuel (i + 1) next (acc ++ items)
          (reqs ++ [cursor]) logs) ∧
    (∀ items next, s i = .ok items next → cursorTruthy next = false →
      fetchFriendIdsAux s (fuel + 1) i cursor acc reqs logs =
        some ⟨some (acc ++ items), reqs ++ [cursor], logs⟩) ∧
    fetch_friend_ids pagesABnone 3 =
      some ⟨some [1, 2, 3, 4, 5], [none, some ("A"), some ("B")], []⟩ := by
  refine ⟨?_, ?_, ?_, by decide⟩
  · intro h
    exact fetchAux_step_rateLimited s fuel i cursor acc reqs logs h
  · intro items next h hc
    rw [fetchAux_step_ok s fuel i cursor acc reqs logs items next h,
      if_pos hc]
  · intro items next h hc
    rw [fetchAux_step_ok s fuel i cursor acc reqs logs items next h,
      if_neg (by simp [hc])]

/-- Witness for C7: the 429 same-request conjunct at a concrete trace. -/
theorem c7_witness :
    fetchFriendIdsAux all429pages 1 0 none [] [] [] =
      fetchFriendIdsAux all429pages 0 1 none [] ([] ++ [none])
        ([] ++ [rateLimitLog]) :=
  (c7_pagination all429pages 0 0 none [] [] []).1 rfl

/-- Claim C10.  Termination: whenever the response trace contains a
terminal response (a 200 with absent/empty cursor, a non-2xx/non-429
status, or a connection error), the pagination loop exits within bounded
fuel; under a trace of unboundedly repeated 429s it never exits (every fuel
bound is exhausted), because its 429 branch has no attempt counter — unlike
the Detail Enricher's per-batch retry loop, which on the same all-429 trace
stops after exactly `MAX_RETRIES` attempts. -/
theorem c10_termination (t s : ℕ → PageResp) (n : ℕ)
    (ht : terminalResp (t n) = true) (hs : ∀ m, s m = .rateLimited) :
    (∃ fuel, (fetch_friend_ids t fuel).isSome = true) ∧
    (∀ fuel, fetch_friend_ids s fuel = none) ∧
    fetchBatch all429batch = (none, 3, [5, 10, 15]) := by
  refine ⟨⟨n + 1, ?_⟩, ?_, by decide⟩
  · have hterm : terminalResp (t (0 + n)) = true := by
      rw [Nat.zero_add]
      exact ht
    exact fetchAux_isSome_of_terminal t n 0 none [] [] [] hterm
  · intro fuel
    exact fetchAux_none_of_all429 s hs fuel 0 none [] [] []

/-- Witness for C10: applied with a terminal trace (HTTP 500 first) and the
all-429 trace, projecting a closed consequence. -/
theorem c10_witness : fetch_friend_ids all429pages 5 = none :=
  (c10_termination errorFirstPages all429pages 0 (by decide)
    (fun _ => rfl)).2.1 5

/-- Counterexample to claim C2 as stated: with 5 records of which exactly 1
is nameless, the nameless fraction is exactly 0.2 — the claim says neither
file is written, but the source's strict `> 0.2` guard passes and both
files are written. -/
theorem c2_counterexample :
    5 * namelessCount fiveOneNameless = fiveOneNameless.length ∧
    save_database fiveOneNameless true true = ⟨true, true, [dbUpdatedLog]⟩ := by
  decide

/-- Claim C2 (amended).  For every non-empty list, both files are written
(given each write's I/O succeeds) exactly when the nameless fraction is AT
MOST 0.2 (`5 * nameless ≤ length`); when the fraction strictly exceeds 0.2
neither file is written and only the corruption log is emitted. -/
theorem c2_save_guard (friends : List Friend) (jsonOk csvOk : Bool)
    (h : friends ≠ []) :
    (5 * namelessCount friends ≤ friends.length →
      (save_database friends jsonOk csvOk).wroteJson = jsonOk ∧
      (save_database friends jsonOk csvOk).wroteCsv = csvOk) ∧
    (friends.length < 5 * namelessCount friends →
      save_database friends jsonOk csvOk = ⟨false, false, [corruptionLog]⟩) := by
  constructor
  · intro hle
    have hng : ¬ 5 * namelessCount friends > friends.length := by omega
    rw [save_database, if_neg h, if_neg hng]
    exact ⟨rfl, rfl⟩
  · intro hgt
    rw [save_database, if_neg h, if_pos (by omega)]

/-- Witness for C2: the amended guard at the fraction-0.2 list. -/
theorem c2_witness :
    (save_database fiveOneNameless true true).wroteJson = true ∧
    (save_database fiveOneNameless true true).wroteCsv = true :=
  (c2_save_guard fiveOneNameless true true (by decide)).1 (by decide)

/-- Counterexample to claim C3 as stated: with a current list whose
nameless fraction is exactly 0.5, the claim says no report is produced and
nothing is appended, but the source's strict `> 0.5` guard passes and a
report with three appended log lines is produced. -/
theorem c3_counterexample :
    2 * namelessCount curHalfNameless = curHalfNameless.length ∧
    (analyze_changes curHalfNameless (.ok oldSingle) tsT true).status =
      .reported {3} {1, 2} ∧
    (analyze_changes curHalfNameless (.ok oldSingle) tsT true).appended.length
      = 3 := by
  have hg : ¬(0 < curHalfNameless.length ∧
      2 * namelessCount curHalfNameless > curHalfNameless.length) := by decide
  have hch : ¬(ids oldSingle \ ids curHalfNameless = ∅ ∧
      ids curHalfNameless \ ids oldSingle = ∅) := by decide
  rw [analyze_changes_ok curHalfNameless oldSingle tsT true hg, if_neg hch]
  refine ⟨by decide, by decide, ?_⟩
  have hlen : (ids oldSingle \ ids curHalfNameless).card +
      (ids curHalfNameless \ ids oldSingle).card = 3 := by decide
  simp [Finset.length_sort, hlen]

/-- Claim C3 (amended).  Analysis is skipped — no report of any kind, and
nothing appended to the activity log — exactly when the current list is
non-empty and its nameless fraction STRICTLY exceeds 0.5
(`2 * nameless > length`); at or below 0.5 (including exactly 0.5) the
analyzer proceeds. -/
theorem c3_analysis_guard (current : List Friend) (oldFile : OldFile)
    (ts : String) (appendOk : Bool) :
    ((analyze_changes current oldFile ts appendOk).status = .skipped ↔
      0 < current.length ∧ 2 * namelessCount current > current.length) ∧
    (0 < current.length → 2 * namelessCount current > current.length →
      analyze_changes current oldFile ts appendOk =
        ⟨.skipped, [], [skipLog]⟩) := by
  have hbody : ∀ hg : ¬(0 < current.length ∧
      2 * namelessCount current > current.length),
      (analyze_changes current oldFile ts appendOk).status ≠ .skipped := by
    intro hg
    cases oldFile with
    | missing =>
      rw [analyze_changes_missing current ts appendOk hg]
      simp
    | corrupt =>
      rw [analyze_changes_corrupt current ts appendOk hg]
      simp
    | ok old =>
      rw [analyze_changes_ok current old ts appendOk hg]
      by_cases hch : ids old \ ids current = ∅ ∧ ids current \ ids old = ∅
      · rw [if_pos hch]
        simp
      · rw [if_neg hch]
        simp
  constructor
  · constructor
    · intro h
      by_contra hg
      exact hbody hg h
    · intro hg
      exact congrArg AnalyzeOut.status
        (analyze_changes_skip current oldFile ts appendOk hg)
  · intro h1 h2
    exact analyze_changes_skip current oldFile ts appendOk ⟨h1, h2⟩

/-- Witness for C3: a single nameless record (fraction 1 > 0.5) is
skipped. -/
theorem c3_witness :
    analyze_changes [⟨1, none, none, none⟩] .missing tsT true =
      ⟨.skipped, [], [skipLog]⟩ :=
  (c3_analysis_guard [⟨1, none, none, none⟩] .missing tsT true).2 (by decide)
    (by decide)

/-- Claim C4.  When the guard passes and an old snapshot exists: if the old
and current id sets are equal the analyzer reports "no changes" and appends
nothing; otherwise it reports removed = old minus current and added =
current minus old, appending exactly one line per removed id plus one per
added id.  The final conjunct checks the concrete example: old ids
{1, 2, 3} against current ids {2, 3, 4} gives removed {1}, added {4} and
exactly two appended lines. -/
theorem c4_changeset (old current : List Friend) (ts : String)
    (hguard : ¬(0 < current.length ∧
      2 * namelessCount current > current.length)) :
    (ids old = ids current →
      analyze_changes current (.ok old) ts true =
        ⟨.noChanges, [], [noChangesLog]⟩) ∧
    (ids old ≠ ids current →
      (analyze_changes current (.ok old) ts true).status =
        .reported (ids old \ ids current) (ids current \ ids old) ∧
      (analyze_changes current (.ok old) ts true).appended.length =
        (ids old \ ids current).card + (ids current \ ids old).card) ∧
    (ids old123 \ ids cur234 = {1} ∧ ids cur234 \ ids old123 = {4} ∧
      (analyze_changes cur234 (.ok old123) tsT true).appended.length = 2) := by
  refine ⟨?_, ?_, ?_⟩
  · intro h
    have hch : ids old \ ids current = ∅ ∧ ids current \ ids old = ∅ :=
      (sdiff_both_empty_iff (ids old) (ids current)).mpr h
    rw [analyze_changes_ok current old ts true hguard, if_pos hch]
  · intro h
    have hch : ¬(ids old \ ids current = ∅ ∧ ids current \ ids old = ∅) := by
      rw [sdiff_both_empty_iff]
      exact h
    rw [analyze_changes_ok current old ts true hguard, if_neg hch]
    refine ⟨rfl, ?_⟩
    simp [Finset.length_sort]
  · have hg : ¬(0 < cur234.length ∧
        2 * namelessCount cur234 > cur234.length) := by decide
    have hch : ¬(ids old123 \ ids cur234 = ∅ ∧ ids cur234 \ ids old123 = ∅) :=
      by decide
    rw [analyze_changes_ok cur234 old123 tsT true hg, if_neg hch]
    have hlen : (ids old123 \ ids cur234).card +
        (ids cur234 \ ids old123).card = 2 := by decide
    refine ⟨by decide, by decide, ?_⟩
    simp [Finset.length_sort, hlen]

/-- Witness for C4: the theorem at the concrete {1,2,3} / {2,3,4} pair. -/
theorem c4_witness :
    (analyze_changes cur234 (.ok old123) tsT true).status =
      .reported (ids old123 \ ids cur234) (ids cur234 \ ids old123) ∧
    (analyze_changes cur234 (.ok old123) tsT true).appended.length =
      (ids old123 \ ids cur234).card + (ids cur234 \ ids old123).card :=
  ((c4_changeset old123 cur234 tsT (by decide)).2.1 (by decide))

/-- Claim C6.  Per-entry merge: a freshly fetched detail is always applied
(first conjunct); with no fresh detail, a prior local record with a truthy
name is applied and the entry counts as recovered (second); with no fresh
detail and a prior record whose name is absent/empty, or no prior record at
all, the entry is left without name fields and is not counted (third and
fourth); and the merge loop applies this per-entry rule to every entry,
with the recovered count equal to the number of entries whose fallback
fired (fifth). -/
theorem c6_fallback_merge (fetched : ℕ → Option Detail)
    (localH : ℕ → Option Friend) (f : Friend) :
    (∀ d, fetched f.id = some d →
      mergeOne fetched localH f = (applyApi f d, false)) ∧
    (∀ l, fetched f.id = none → localH f.id = some l →
      strTruthy l.name = true →
      mergeOne fetched localH f = (applyLocal f l, true)) ∧
    (∀ l, fetched f.id = none → localH f.id = some l →
      strTruthy l.name = false → mergeOne fetched localH f = (f, false)) ∧
    (fetched f.id = none → localH f.id = none →
      mergeOne fetched localH f = (f, false)) ∧
    (∀ friends : List Friend, mergeDetails fetched localH friends =
      (friends.map (fun g => (mergeOne fetched localH g).1),
       friends.countP (fun g => (mergeOne fetched localH g).2))) := by
  refine ⟨?_, ?_, ?_, ?_, ?_⟩
  · intro d hd
    rw [mergeOne.eq_def, hd]
  · intro l hf hl hn
    rw [mergeOne.eq_def, hf]
    show (match localH f.id with
      | some l => if strTruthy l.name then (applyLocal f l, true) else (f, false)
      | none => (f, false)) = _
    rw [hl]
    show (if strTruthy l.name then (applyLocal f l, true) else (f, false)) = _
    rw [if_pos hn]
  · intro l hf hl hn
    rw [mergeOne.eq_def, hf]
    show (match localH f.id with
      | some l => if strTruthy l.name then (applyLocal f l, true) else (f, false)
      | none => (f, false)) = _
    rw [hl]
    show (if strTruthy l.name then (applyLocal f l, true) else (f, false)) = _
    rw [if_neg (by simp [hn])]
  · intro hf hl
    rw [mergeOne.eq_def, hf]
    show (match localH f.id with
      | some l => if strTruthy l.name then (applyLocal f l, true) else (f, false)
      | none => (f, false)) = _
    rw [hl]
  · intro friends
    exact mergeDetails_spec fetched localH friends

/-- Witness for C6: the fallback conjunct at a concrete entry whose id has
no fresh detail but a named prior record. -/
theorem c6_witness :
    mergeOne fetchedNone localSeven friendSeven =
      (applyLocal friendSeven ⟨7, some ("old"), some ("Old"), some true⟩,
       true) :=
  (c6_fallback_merge fetchedNone localSeven friendSeven).2.1
    ⟨7, some ("old"), some ("Old"), some true⟩ rfl (by decide) (by decide)

/-- Counterexample to claim C8 as stated: a snapshot read/parse failure in
`load_local_history` returns the empty fallback with ZERO log lines, and
the same failure in `analyze_changes`' old-snapshot load returns silently
with no console output and nothing appended — these errors are swallowed
without any log line, contradicting the claim that every error in any
component emits one. -/
theorem c8_counterexample :
    load_local_history .corrupt = ([], []) ∧
    analyze_changes [⟨1, some ("a"), none, none⟩] .corrupt tsT true =
      ⟨.loadFailed, [], []⟩ := by
  constructor
  · rfl
  · exact analyze_changes_corrupt [⟨1, some ("a"), none, none⟩] tsT true
      (by decide)

/-- Claim C8 (amended).  Snapshot read/parse failures are silently
swallowed: `load_local_history` emits no log line in any file state and
returns the empty fallback on failure, and `analyze_changes` returns
silently (no console line, nothing appended) when the old snapshot fails to
load.  The other modelled error paths do log and are non-fatal: a non-2xx
non-429 pagination status appends an error line and returns, a failing JSON
write logs and still attempts the CSV write, and a failing activity-log
append logs and leaves the analysis result intact. -/
theorem c8_error_logging (st : FileState) (current oldL friends : List Friend)
    (ts : String) (s : ℕ → PageResp) (fuel i : ℕ) (cursor : Option String)
    (acc : List ℕ) (reqs : List (Option String)) (logs : List String) (c : ℕ)
    (csvOk : Bool)
    (hguard : ¬(0 < current.length ∧
      2 * namelessCount current > current.length))
    (hs : s i = .httpError c)
    (hne : friends ≠ []) (hok : 5 * namelessCount friends ≤ friends.length)
    (hch : ¬(ids oldL \ ids current = ∅ ∧ ids current \ ids oldL = ∅)) :
    (load_local_history st).2 = [] ∧
    analyze_changes current .corrupt ts true = ⟨.loadFailed, [], []⟩ ∧
    fetchFriendIdsAux s (fuel + 1) i cursor acc reqs logs =
      some ⟨some acc, reqs ++ [cursor], logs ++ [errorFetchLog c]⟩ ∧
    (save_database friends false csvOk).console.head? = some jsonFailLog ∧
    (save_database friends false csvOk).wroteCsv = csvOk ∧
    (analyze_changes current (.ok oldL) ts false).console =
      [logWriteFailedLog] ∧
    (analyze_changes current (.ok oldL) ts false).status =
      .reported (ids oldL \ ids current) (ids current \ ids oldL) := by
  have hsave : save_database friends false csvOk =
      ⟨false, csvOk, (if false then [] else [jsonFailLog]) ++
        (if csvOk then [dbUpdatedLog] else [csvFailLog])⟩ := by
    rw [save_database, if_neg hne, if_neg (by omega)]
  refine ⟨?_, analyze_changes_corrupt current ts true hguard, ?_, ?_, ?_, ?_, ?_⟩
  · cases st <;> rfl
  · exact fetchAux_step_httpError s fuel i cursor acc reqs logs c hs
  · rw [hsave]
    rfl
  · rw [hsave]
  · rw [analyze_changes_ok current oldL ts false hguard, if_neg hch]
    rfl
  · rw [analyze_changes_ok current oldL ts false hguard, if_neg hch]

/-- Witness for C8: the amended theorem at concrete inputs, projecting the
silently-swallowed-failure conjunct. -/
theorem c8_witness : (load_local_history .corrupt).2 = [] :=
  (c8_error_logging .corrupt cur234 old123 fiveOneNameless tsT
    errorFirstPages 0 0 none [] [] [] 500 true (by decide) (by decide)
    (by decide) (by decide) (by decide)).1

/-- Claim C9.  With an empty enriched list, `save_database` returns before
either write, whatever the I/O would have done, so the persisted snapshot
and tabular export are untouched — even though on such a run
`analyze_changes` (whose guard passes vacuously on an empty list) reports
every id of the non-empty old snapshot as removed and appends one line per
previously known friend. -/
theorem c9_empty_save_frame (jsonOk csvOk : Bool) (old : List Friend)
    (ts : String) (h : old ≠ []) :
    save_database [] jsonOk csvOk = ⟨false, false, []⟩ ∧
    (analyze_changes [] (.ok old) ts true).status = .reported (ids old) ∅ ∧
    (analyze_changes [] (.ok old) ts true).appended.length = (ids old).card := by
  have hg : ¬(0 < ([] : List Friend).length ∧
      2 * namelessCount [] > ([] : List Friend).length) := by decide
  have hempty : ids ([] : List Friend) = ∅ := rfl
  have hch : ¬(ids old \ ids ([] : List Friend) = ∅ ∧
      ids ([] : List Friend) \ ids old = ∅) := by
    rw [hempty]
    simp only [Finset.sdiff_empty, Finset.empty_sdiff, and_true]
    exact ids_ne_empty old h
  refine ⟨rfl, ?_, ?_⟩
  · rw [analyze_changes_ok [] old ts true hg, if_neg hch]
    rw [hempty, Finset.sdiff_empty, Finset.empty_sdiff]
  · rw [analyze_changes_ok [] old ts true hg, if_neg hch]
    simp [Finset.length_sort, hempty]

/-- Witness for C9: concrete old snapshot with ids 1, 2, 3. -/
theorem c9_witness :
    save_database [] true true = ⟨false, false, []⟩ ∧
    (analyze_changes [] (.ok old123) tsT true).status =
      .reported (ids old123) ∅ ∧
    (analyze_changes [] (.ok old123) tsT true).appended.length =
      (ids old123).card :=
  c9_empty_save_frame true true old123 tsT (by decide)

end FriendsTracker
